import Mathlib

/-!
Shallow embedding of `aptsources_cleanup/util/terminal.py`: the terminal-aware
text wrapper `termwrap` (a `textwrap.TextWrapper` subclass), its process-wide
instance registry, and the resilient input helper `try_input`.

External collaborators are modelled as explicit data:
* an output handle carries its Python identity (`hid`), the result of
  `os.isatty(fd)`, the outcome of `os.get_terminal_size(fd)` (columns or an
  `OSError` errno), and the outcome of writing to it;
* the line reader `input(prompt)` is a function from the prompt text to a
  read outcome (a line, `EOFError`, or an `EnvironmentError` with an errno);
* `textwrap.TextWrapper.wrap` with default options is modelled by the greedy
  fill over whitespace-separated words it performs on simple texts.

Python exceptions become an `Except` error type; the mutable class-level
registry `termwrap._instances` becomes explicit state threaded through
`termwrap.get`; Python object identity becomes an allocation counter (`oid`).
-/

/-- Python exceptions that the embedded code can raise. -/
inductive PyErr where
  /-- `TypeError`, raised by `print`/`print_all` on an unbound handle. -/
  | typeError
  /-- `AttributeError`, raised when `.fileno()` is taken on `None`. -/
  | attrError
  /-- `EnvironmentError` / `OSError` carrying an `errno`. -/
  | envError (errno : Nat)
deriving Repr, DecidableEq

/-- `errno.EBADF` (bad file descriptor). -/
def EBADF : Nat := 9

deriving instance DecidableEq for Except

/-- An open output stream as the code observes it: its Python object identity
`id(file)`, whether `os.isatty(file.fileno())` holds, what
`get_terminal_size(file.fileno())` yields (`.ok columns` or `.error errno`),
and whether writing to it succeeds (`none`) or raises an errno. -/
structure FileHandle where
  hid : Nat
  isatty : Bool
  termSize : Except Nat Nat
  writeResult : Option Nat
deriving Repr, DecidableEq

/-- `termwrap._refresh_width_impl(file)`: `0` when the descriptor is not a
terminal, otherwise the column count from `get_terminal_size`, whose
`OSError` propagates. -/
def refresh_width_impl (f : FileHandle) : Except PyErr Int :=
  if !f.isatty then .ok 0
  else
    match f.termSize with
    | .error e => .error (.envError e)
    | .ok cols => .ok (Int.ofNat cols)

/-- Collaborator model (`textwrap`): accumulate the whitespace-separated
words of a character stream, `cur` holding the reversed characters of the
word under construction. -/
def splitWordsAux (cs : List Char) (cur : List Char) : List String :=
  match cs with
  | [] => if cur.isEmpty then [] else [String.mk cur.reverse]
  | c :: rest =>
    if c = ' ' then
      if cur.isEmpty then splitWordsAux rest []
      else String.mk cur.reverse :: splitWordsAux rest []
    else splitWordsAux rest (c :: cur)

/-- Collaborator model (`textwrap`): split a text into whitespace-separated
words. -/
def splitWords (s : String) : List String :=
  splitWordsAux s.toList []

/-- Collaborator model (`textwrap.TextWrapper.wrap`, default options, simple
texts): greedy fill of words into lines of at most `width` columns, `cur`
being the line under construction (`""` when empty). -/
def wrapLines (width : Nat) (words : List String) (cur : String) : List String :=
  match words with
  | [] => if cur = "" then [] else [cur]
  | w :: ws =>
    if cur = "" then wrapLines width ws w
    else if cur.length + 1 + w.length ≤ width then wrapLines width ws (cur ++ " " ++ w)
    else cur :: wrapLines width ws w

/-- Collaborator model: `textwrap.TextWrapper.wrap(text)` at a positive
`width`. -/
def wrapText (width : Nat) (text : String) : List String :=
  wrapLines width (splitWords text) ""

/-- Collaborator model: `textwrap.TextWrapper.fill(text)` — the wrapped lines
re-joined by newlines. -/
def fillText (width : Nat) (text : String) : String :=
  String.intercalate "\n" (wrapText width text)

/-- A `termwrap` instance: the wrap `width` and the bound output handle
`file` (as in the source), plus `oid`, the Python object identity assigned
at allocation. -/
structure Termwrap where
  oid : Nat
  width : Int
  file : Option FileHandle
deriving Repr, DecidableEq

namespace Termwrap

/-- `termwrap.__init__(file, width)`: when a handle is supplied and
`width <= 0`, the width is initialised from the terminal size query (whose
`OSError` propagates); otherwise the given width is kept. The handle is then
stored on the instance. -/
def init (oid : Nat) (file : Option FileHandle) (width : Int) : Except PyErr Termwrap :=
  match file with
  | some f =>
    if width ≤ 0 then
      match refresh_width_impl f with
      | .error e => .error e
      | .ok w => .ok ⟨oid, w, some f⟩
    else .ok ⟨oid, width, some f⟩
  | none => .ok ⟨oid, width, none⟩

/-- `termwrap.print(paragraph, end)`: raises `TypeError` on an unbound
handle; wraps the paragraph at `width` columns when `width > 0`, otherwise
keeps it as the single line `(paragraph,)`; writes the lines joined by
newlines followed by `end`. Returns the bytes written; a failing handle
write raises its errno. -/
def printOut (tw : Termwrap) (paragraph : String) (endStr : String) : Except PyErr String :=
  match tw.file with
  | none => .error .typeError
  | some f =>
    let lines := if tw.width > 0 then wrapText tw.width.toNat paragraph else [paragraph]
    match f.writeResult with
    | some e => .error (.envError e)
    | none => .ok (String.intercalate "\n" lines ++ endStr)

/-- `termwrap.print_all(paragraphs, end, sep)`: raises `TypeError` on an
unbound handle; `fill`s each paragraph when `width > 0`; writes the
paragraphs joined by `sep` followed by `end`. -/
def print_all (tw : Termwrap) (paragraphs : List String) (endStr sep : String) :
    Except PyErr String :=
  match tw.file with
  | none => .error .typeError
  | some f =>
    let ps := if tw.width > 0 then paragraphs.map (fillText tw.width.toNat) else paragraphs
    match f.writeResult with
    | some e => .error (.envError e)
    | none => .ok (String.intercalate sep ps ++ endStr)

/-- `termwrap.refresh_width(file)`: queries the given handle, or the stored
one when none is given (`.fileno()` on `None` raises); adopts the new width
only when it is positive and reports whether it did. -/
def refresh_width (tw : Termwrap) (file : Option FileHandle) :
    Except PyErr (Termwrap × Bool) :=
  match (match file with | some f => some f | none => tw.file) with
  | none => .error .attrError
  | some f =>
    match refresh_width_impl f with
    | .error e => .error e
    | .ok w => if w > 0 then .ok ({tw with width := w}, true) else .ok (tw, false)

end Termwrap

/-- A value of the registry dict `termwrap._instances`: either the instance
itself (`use_weakref=False`) or a weak reference, live or expired. -/
inductive Entry where
  | strong (tw : Termwrap)
  | weakLive (tw : Termwrap)
  | weakDead
deriving Repr, DecidableEq

/-- `_instances.get(id(file))` on the association-list model of the dict. -/
def lookupEntry (m : List (Nat × Entry)) (k : Nat) : Option Entry :=
  match m with
  | [] => none
  | (k', v) :: rest => if k' = k then some v else lookupEntry rest k

/-- `_instances[id(file)] = v`: replace the entry at `k`, or append it. -/
def setEntry (m : List (Nat × Entry)) (k : Nat) (v : Entry) : List (Nat × Entry) :=
  match m with
  | [] => [(k, v)]
  | (k', v') :: rest => if k' = k then (k, v) :: rest else (k', v') :: setEntry rest k v

/-- Dereference a looked-up registry entry the way `get` does: a weak
reference is dereferenced (an expired one yields `None`), a missing key
yields `None`. -/
def derefEntry : Option Entry → Option Termwrap
  | some (.strong tw) => some tw
  | some (.weakLive tw) => some tw
  | some .weakDead => none
  | none => none

/-- The process-wide mutable state behind `termwrap`: the class attribute
`_instances` plus the allocation counter standing in for Python object
identity of freshly constructed instances. -/
structure Registry where
  instances : List (Nat × Entry)
  nextOid : Nat
deriving Repr, DecidableEq

/-- The registry at interpreter start: `_instances = {}`. -/
def Registry.empty : Registry := ⟨[], 0⟩

/-- `termwrap.get(file, use_weakref, ignore_errors)`: look up `id(file)`,
dereferencing a weak entry; on a miss construct `termwrap(file)` — and if
that raises `EnvironmentError` with `ignore_errors` set, fall back to
`termwrap()` (no width query, width 0) with the handle assigned manually —
then store the instance (weakly unless `use_weakref` is false). Returns the
updated registry alongside the instance or the propagated error. -/
def termwrap.get (st : Registry) (f : FileHandle) (use_weakref ignore_errors : Bool) :
    Registry × Except PyErr Termwrap :=
  match derefEntry (lookupEntry st.instances f.hid) with
  | some tw => (st, .ok tw)
  | none =>
    let mk : Except PyErr Termwrap :=
      match Termwrap.init st.nextOid (some f) 0 with
      | .ok tw => .ok tw
      | .error e =>
        if ignore_errors then
          match Termwrap.init st.nextOid none 0 with
          | .ok tw0 => .ok {tw0 with file := some f}
          | .error e' => .error e'
        else .error e
    match mk with
    | .error e => (st, .error e)
    | .ok tw =>
      (⟨setEntry st.instances f.hid (if use_weakref then .weakLive tw else .strong tw),
        st.nextOid + 1⟩, .ok tw)

/-- `termwrap.stdout()`: `get` on the current `sys.stdout` handle with the
default flags. -/
def termwrap.stdout (st : Registry) (stdoutH : FileHandle) :
    Registry × Except PyErr Termwrap :=
  termwrap.get st stdoutH true true

/-- `termwrap.stderr()`: `get` on the current `sys.stderr` handle with the
default flags. -/
def termwrap.stderr (st : Registry) (stderrH : FileHandle) :
    Registry × Except PyErr Termwrap :=
  termwrap.get st stderrH true true

/-- A weak reference expiring under garbage collection: a live weak entry
becomes an expired one; strong entries are unaffected. -/
def expireEntry : Entry → Entry
  | .weakLive _ => .weakDead
  | e => e

/-- Garbage collection in the model: the weak entry at key `k` (if any)
expires. -/
def gcAt (st : Registry) (k : Nat) : Registry :=
  ⟨st.instances.map (fun p => if p.1 = k then (p.1, expireEntry p.2) else p), st.nextOid⟩

/-- Registry states reachable from interpreter start through `get` calls
(which subsume `stdout()` and `stderr()`) and garbage collection. -/
inductive Reachable : Registry → Prop where
  | init : Reachable Registry.empty
  | step (st : Registry) (f : FileHandle) (uw ie : Bool) :
      Reachable st → Reachable (termwrap.get st f uw ie).1
  | gc (st : Registry) (k : Nat) :
      Reachable st → Reachable (gcAt st k)

/-- The outcome of the collaborator `input(prompt)`: a line, `EOFError` at
end of stream, or an `EnvironmentError` with an errno. -/
inductive ReadResult where
  | line (s : String)
  | eofError
  | envError (errno : Nat)
deriving Repr, DecidableEq

/-- Python truthiness of the `prompt` argument: `None` and `''` are falsy. -/
def promptTruthy : Option String → Bool
  | none => false
  | some s => !(s == "")

/-- What one `try_input` call did besides returning: the bytes the prompt
`print` wrote to stdout (`none` when no prompt was printed), the prompt text
handed to `input`, and the returned string. -/
structure TryInputTrace where
  written : Option String
  readPrompt : String
  result : String
deriving Repr, DecidableEq

/-- The prompt phase of `try_input`: when `prompt` is truthy, fetch the
stdout wrapper from the registry and `print(prompt, end=end)` — any error
here propagates — after which `end` is cleared; yields the bytes written (if
any) and the prompt text for the subsequent `input` call. -/
def promptStep (st : Registry) (stdoutH : FileHandle) (prompt : Option String)
    (endStr : String) : Registry × Except PyErr (Option String × String) :=
  if promptTruthy prompt then
    match termwrap.stdout st stdoutH with
    | (st', .error e) => (st', .error e)
    | (st', .ok tw) =>
      match tw.printOut (prompt.getD "") endStr with
      | .error e => (st', .error e)
      | .ok written => (st', .ok (some written, ""))
  else (st, .ok (none, endStr))

/-- The guarded `input(end)` call of `try_input`: `EOFError` and an
`EnvironmentError` with `errno == EBADF` are absorbed into `on_eof`, any
other `EnvironmentError` re-raises, and a read line is returned. -/
def readStep (readLine : String → ReadResult) (promptText : String) (on_eof : String)
    (written : Option String) : Except PyErr TryInputTrace :=
  match readLine promptText with
  | .line s => .ok ⟨written, promptText, s⟩
  | .eofError => .ok ⟨written, promptText, on_eof⟩
  | .envError e =>
    if e ≠ EBADF then .error (.envError e) else .ok ⟨written, promptText, on_eof⟩

/-- `try_input(prompt, on_eof, end)`: print the truthy prompt through the
registry's stdout wrapper with `end` appended, then read a line with the
computed prompt text, degrading to `on_eof` on `EOFError` or `EBADF`. -/
def try_input (st : Registry) (stdoutH : FileHandle) (readLine : String → ReadResult)
    (prompt : Option String) (on_eof : String) (endStr : String) :
    Registry × Except PyErr TryInputTrace :=
  match promptStep st stdoutH prompt endStr with
  | (st', .error e) => (st', .error e)
  | (st', .ok (written, promptText)) => (st', readStep readLine promptText on_eof written)

/-- The width `termwrap.get` gives a freshly constructed instance for handle
`f` when errors are ignored: the queried width, or `0` when the query is
inapplicable or failed. -/
def initialWidth (f : FileHandle) : Int :=
  match refresh_width_impl f with
  | .ok w => w
  | .error _ => 0

/-! ## Helper lemmas -/

theorem intercalate_singleton (s t : String) : String.intercalate s [t] = t := rfl

theorem wrapText_fox : wrapText 10 "the quick brown fox" = ["the quick", "brown fox"] := by
  decide

/-! ## C2: the width-10 wrapping scenario -/

/-- C2: a Wrapper constructed with a bound handle and `width=10` wraps
`"the quick brown fox"` into `"the quick"` and `"brown fox"` and writes them
joined by a newline followed by the default line ending. -/
theorem wrapper_width10_print_scenario (oid : Nat) (f : FileHandle) (tw : Termwrap)
    (hw : f.writeResult = none) (hinit : Termwrap.init oid (some f) 10 = .ok tw) :
    tw.printOut "the quick brown fox" "\n" = .ok "the quick\nbrown fox\n" := by
  have htw : tw = ⟨oid, 10, some f⟩ := by
    simp [Termwrap.init] at hinit
    exact hinit.symm
  subst htw
  simp [Termwrap.printOut, hw, wrapText_fox]
  rfl

theorem wrapper_width10_print_scenario_witness :
    (⟨0, false, Except.ok 0, none⟩ : FileHandle).writeResult = none ∧
    (Termwrap.mk 0 10 (some ⟨0, false, Except.ok 0, none⟩)).printOut
      "the quick brown fox" "\n" = .ok "the quick\nbrown fox\n" :=
  ⟨rfl, wrapper_width10_print_scenario 0 ⟨0, false, Except.ok 0, none⟩ _ rfl rfl⟩

/-! ## C3: non-positive width means no wrapping -/

/-- C3: a Wrapper with a bound handle and `width <= 0` prints any text
unchanged as a single unwrapped line (followed by the default line
ending). -/
theorem print_width_nonpositive (tw : Termwrap) (f : FileHandle) (text : String)
    (hwid : tw.width ≤ 0) (hf : tw.file = some f) (hw : f.writeResult = none) :
    tw.printOut text "\n" = .ok (text ++ "\n") := by
  have hlt : ¬ tw.width > 0 := by omega
  simp [Termwrap.printOut, hf, hw, hlt, intercalate_singleton]

theorem print_width_nonpositive_witness :
    (Termwrap.mk 0 (-3) (some ⟨0, false, Except.ok 0, none⟩)).width ≤ 0 ∧
    (Termwrap.mk 0 (-3) (some ⟨0, false, Except.ok 0, none⟩)).printOut
      "the quick brown fox" "\n" = .ok "the quick brown fox\n" :=
  ⟨by decide,
   print_width_nonpositive _ ⟨0, false, Except.ok 0, none⟩ _ (by decide) rfl rfl⟩

/-! ## C4: refresh_width adopts only positive queried widths -/

/-- C4: `refresh_width` re-queries the width of the given handle (or the
stored one when none is given); a positive query result is adopted and
`true` returned, a result of `0` (in particular for a non-terminal) leaves
the width unchanged and returns `false`. -/
theorem refresh_width_spec (tw : Termwrap) (file : Option FileHandle) (f : FileHandle)
    (heff : (match file with | some g => some g | none => tw.file) = some f) :
    (∀ w : Int, 0 < w → refresh_width_impl f = .ok w →
      tw.refresh_width file = .ok ({tw with width := w}, true)) ∧
    (refresh_width_impl f = .ok 0 →
      tw.refresh_width file = .ok (tw, false)) := by
  constructor
  · intro w hwpos hq
    simp [Termwrap.refresh_width, heff, hq, hwpos]
  · intro hq
    simp [Termwrap.refresh_width, heff, hq]

theorem refresh_width_spec_witness :
    refresh_width_impl ⟨2, true, Except.ok 80, none⟩ = .ok 80 ∧
    (Termwrap.mk 0 5 (some ⟨1, false, Except.ok 0, none⟩)).refresh_width
        (some ⟨2, true, Except.ok 80, none⟩)
      = .ok (Termwrap.mk 0 80 (some ⟨1, false, Except.ok 0, none⟩), true) :=
  ⟨by decide,
   (refresh_width_spec (Termwrap.mk 0 5 (some ⟨1, false, Except.ok 0, none⟩))
      (some ⟨2, true, Except.ok 80, none⟩) ⟨2, true, Except.ok 80, none⟩ rfl).1
     80 (by decide) (by decide)⟩

/-! ## C5: printing requires a bound handle -/

/-- C5: with no bound handle both `print` and `print_all` fail with the
invalid-state error (`TypeError`) before writing anything; with a bound
handle neither ever produces that error. -/
theorem print_requires_bound_handle (tw : Termwrap) (p : String) (ps : List String)
    (endStr sep : String) :
    (tw.file = none →
      tw.printOut p endStr = .error .typeError ∧
      tw.print_all ps endStr sep = .error .typeError) ∧
    (tw.file ≠ none →
      tw.printOut p endStr ≠ .error .typeError ∧
      tw.print_all ps endStr sep ≠ .error .typeError) := by
  constructor
  · intro hf
    exact ⟨by simp [Termwrap.printOut, hf], by simp [Termwrap.print_all, hf]⟩
  · intro hf
    obtain ⟨f, hf⟩ := Option.ne_none_iff_exists'.mp hf
    cases hwr : f.writeResult <;>
      simp [Termwrap.printOut, Termwrap.print_all, hf, hwr]

theorem print_requires_bound_handle_witness :
    (Termwrap.mk 0 0 none).file = none ∧
    (Termwrap.mk 0 0 none).printOut "x" "\n" = .error .typeError ∧
    (Termwrap.mk 0 0 none).print_all ["x"] "\n" "\n\n" = .error .typeError :=
  ⟨rfl, (print_requires_bound_handle (Termwrap.mk 0 0 none) "x" ["x"] "\n" "\n\n").1 rfl⟩

/-! ## Registry helper lemmas -/

theorem lookupEntry_setEntry_self (m : List (Nat × Entry)) (k : Nat) (v : Entry) :
    lookupEntry (setEntry m k v) k = some v := by
  induction m with
  | nil => simp [setEntry, lookupEntry]
  | cons p rest ih =>
    by_cases h : p.1 = k
    · simp [setEntry, h, lookupEntry]
    · simp [setEntry, h, lookupEntry, ih]

/-- On a registry miss with `ignore_errors=True`, `get` constructs a fresh
instance bound to `f` (width from the query when it succeeds, `0`
otherwise), stores it under `id(f)` per `use_weakref`, and returns it. -/
theorem get_miss (st : Registry) (f : FileHandle) (uw : Bool)
    (hmiss : derefEntry (lookupEntry st.instances f.hid) = none) :
    termwrap.get st f uw true =
      (⟨setEntry st.instances f.hid
          (if uw then Entry.weakLive ⟨st.nextOid, initialWidth f, some f⟩
           else Entry.strong ⟨st.nextOid, initialWidth f, some f⟩),
        st.nextOid + 1⟩,
       .ok ⟨st.nextOid, initialWidth f, some f⟩) := by
  unfold termwrap.get
  rw [hmiss]
  unfold Termwrap.init initialWidth
  cases hq : refresh_width_impl f <;> simp [hq]

/-! ## C6: fallback construction on a failing width query -/

/-- C6: when the width query for `f` fails with an I/O error and the
registry has no live entry for it, `get` with `ignore_errors` constructs a
width-0 instance, manually binds the handle, stores and returns it; without
`ignore_errors` the error propagates and the registry is unchanged. -/
theorem get_query_error_fallback (st : Registry) (f : FileHandle) (uw : Bool) (e : Nat)
    (hmiss : derefEntry (lookupEntry st.instances f.hid) = none)
    (hatty : f.isatty = true) (hq : f.termSize = .error e) :
    termwrap.get st f uw true =
      (⟨setEntry st.instances f.hid
          (if uw then Entry.weakLive ⟨st.nextOid, 0, some f⟩
           else Entry.strong ⟨st.nextOid, 0, some f⟩),
        st.nextOid + 1⟩,
       .ok ⟨st.nextOid, 0, some f⟩) ∧
    termwrap.get st f uw false = (st, .error (.envError e)) := by
  have himpl : refresh_width_impl f = .error (.envError e) := by
    simp [refresh_width_impl, hatty, hq]
  constructor
  · have h := get_miss st f uw hmiss
    rwa [show initialWidth f = 0 by simp [initialWidth, himpl]] at h
  · unfold termwrap.get
    rw [hmiss]
    unfold Termwrap.init
    simp [himpl]

theorem get_query_error_fallback_witness :
    termwrap.get Registry.empty ⟨3, true, Except.error 5, none⟩ true true =
      (⟨[(3, Entry.weakLive ⟨0, 0, some ⟨3, true, Except.error 5, none⟩⟩)], 1⟩,
       .ok ⟨0, 0, some ⟨3, true, Except.error 5, none⟩⟩) ∧
    termwrap.get Registry.empty ⟨3, true, Except.error 5, none⟩ true false =
      (Registry.empty, .error (.envError 5)) :=
  get_query_error_fallback Registry.empty ⟨3, true, Except.error 5, none⟩ true 5
    rfl rfl rfl

/-! ## C7: strong storage makes repeated get a cache hit -/

/-- C7: a `get` with strong storage followed, with no intervening registry
mutation, by another `get` on the same handle returns the identical instance
both times and leaves the registry untouched the second time. -/
theorem get_strong_twice_same_instance (st st' : Registry) (f : FileHandle) (ie : Bool)
    (tw : Termwrap) (h : termwrap.get st f false ie = (st', .ok tw)) :
    termwrap.get st' f false ie = (st', .ok tw) := by
  unfold termwrap.get at h
  cases hde : derefEntry (lookupEntry st.instances f.hid) with
  | some tw0 =>
    rw [hde] at h
    obtain ⟨hst, htw⟩ := Prod.mk.injEq .. ▸ h
    subst hst
    obtain rfl : tw0 = tw := by injection htw
    unfold termwrap.get
    rw [hde]
  | none =>
    rw [hde] at h
    simp only at h
    cases hmk : (match Termwrap.init st.nextOid (some f) 0 with
      | .ok tw => Except.ok tw
      | .error e =>
        if ie then
          match Termwrap.init st.nextOid none 0 with
          | .ok tw0 => Except.ok {tw0 with file := some f}
          | .error e' => Except.error e'
        else Except.error e : Except PyErr Termwrap) with
    | error e => rw [hmk] at h; simp at h
    | ok tw1 =>
      rw [hmk] at h
      simp only [Prod.mk.injEq, Except.ok.injEq] at h
      obtain ⟨hst, rfl⟩ := h
      unfold termwrap.get
      rw [← hst]
      simp [lookupEntry_setEntry_self, derefEntry, hst]

theorem get_strong_twice_same_instance_witness :
    termwrap.get ⟨[(1, Entry.strong ⟨0, 0, some ⟨1, false, Except.ok 0, none⟩⟩)], 1⟩
        ⟨1, false, Except.ok 0, none⟩ false true =
      (⟨[(1, Entry.strong ⟨0, 0, some ⟨1, false, Except.ok 0, none⟩⟩)], 1⟩,
       .ok ⟨0, 0, some ⟨1, false, Except.ok 0, none⟩⟩) :=
  get_strong_twice_same_instance Registry.empty
    ⟨[(1, Entry.strong ⟨0, 0, some ⟨1, false, Except.ok 0, none⟩⟩)], 1⟩
    ⟨1, false, Except.ok 0, none⟩ true ⟨0, 0, some ⟨1, false, Except.ok 0, none⟩⟩
    (by rfl)

/-! ## C8: at most one stored instance per handle identity -/

theorem mem_keys_setEntry (m : List (Nat × Entry)) (k x : Nat) (v : Entry)
    (hx : x ∈ (setEntry m k v).map Prod.fst) :
    x = k ∨ x ∈ m.map Prod.fst := by
  induction m with
  | nil =>
    simp only [setEntry, List.map_cons, List.map_nil, List.mem_singleton] at hx
    exact Or.inl hx
  | cons p rest ih =>
    obtain ⟨k', v'⟩ := p
    by_cases h : k' = k
    · simp only [setEntry, if_pos h, List.map_cons, List.mem_cons] at hx
      rcases hx with hx | hx
      · exact Or.inl hx
      · exact Or.inr (List.mem_cons_of_mem _ hx)
    · simp only [setEntry, if_neg h, List.map_cons, List.mem_cons] at hx
      rcases hx with hx | hx
      · exact Or.inr (by simp [hx])
      · rcases ih hx with h1 | h1
        · exact Or.inl h1
        · exact Or.inr (by simp [h1])

theorem keys_nodup_setEntry (m : List (Nat × Entry)) (k : Nat) (v : Entry)
    (hm : (m.map Prod.fst).Nodup) :
    ((setEntry m k v).map Prod.fst).Nodup := by
  induction m with
  | nil => simp [setEntry]
  | cons p rest ih =>
    obtain ⟨k', v'⟩ := p
    simp only [List.map_cons, List.nodup_cons] at hm
    by_cases h : k' = k
    · simp only [setEntry, if_pos h, List.map_cons, List.nodup_cons]
      exact ⟨h ▸ hm.1, hm.2⟩
    · simp only [setEntry, if_neg h, List.map_cons, List.nodup_cons]
      refine ⟨fun hmem => ?_, ih hm.2⟩
      rcases mem_keys_setEntry rest k k' v hmem with h1 | h1
      · exact h h1
      · exact hm.1 h1

theorem keys_nodup_get (st : Registry) (f : FileHandle) (uw ie : Bool)
    (hm : (st.instances.map Prod.fst).Nodup) :
    (((termwrap.get st f uw ie).1.instances).map Prod.fst).Nodup := by
  unfold termwrap.get
  cases hde : derefEntry (lookupEntry st.instances f.hid) with
  | some tw0 => exact hm
  | none =>
    simp only
    cases hmk : (match Termwrap.init st.nextOid (some f) 0 with
      | .ok tw => Except.ok tw
      | .error e =>
        if ie then
          match Termwrap.init st.nextOid none 0 with
          | .ok tw0 => Except.ok {tw0 with file := some f}
          | .error e' => Except.error e'
        else Except.error e : Except PyErr Termwrap) with
    | error e => exact hm
    | ok tw1 => exact keys_nodup_setEntry st.instances f.hid _ hm

theorem keys_gcAt (st : Registry) (k : Nat) :
    (gcAt st k).instances.map Prod.fst = st.instances.map Prod.fst := by
  simp only [gcAt, List.map_map]
  apply List.map_congr_left
  intro p _
  by_cases h : p.1 = k <;> simp [h]

theorem reachable_keys_nodup (st : Registry) (hst : Reachable st) :
    (st.instances.map Prod.fst).Nodup := by
  induction hst with
  | init => simp [Registry.empty]
  | step st f uw ie _ ih => exact keys_nodup_get st f uw ie ih
  | gc st k _ ih => rw [keys_gcAt]; exact ih

theorem filter_key_nil_of_not_mem (m : List (Nat × Entry)) (k : Nat)
    (hk : k ∉ m.map Prod.fst) :
    m.filter (fun p => p.1 = k) = [] := by
  induction m with
  | nil => rfl
  | cons p rest ih =>
    simp only [List.map_cons, List.mem_cons, not_or] at hk
    have hpk : ¬ (p.1 = k) := fun h => hk.1 h.symm
    rw [List.filter_cons]
    simp only [hpk, decide_eq_true_eq, if_neg]
    exact ih hk.2

theorem filter_key_length_of_nodup (m : List (Nat × Entry)) (k : Nat)
    (hm : (m.map Prod.fst).Nodup) :
    (m.filter (fun p => p.1 = k)).length ≤ 1 := by
  induction m with
  | nil => simp
  | cons p rest ih =>
    simp only [List.map_cons, List.nodup_cons] at hm
    rw [List.filter_cons]
    split
    · next hp =>
      have h : p.1 = k := of_decide_eq_true hp
      rw [filter_key_nil_of_not_mem rest k (h ▸ hm.1)]
      simp
    · exact ih hm.2

/-- C8: in every registry state reachable through `get` (hence `stdout` and
`stderr`) and garbage collection, each handle identity has at most one
stored entry — at most one live instance per distinct output handle. -/
theorem registry_at_most_one_per_handle (st : Registry) (hst : Reachable st) (k : Nat) :
    (st.instances.filter (fun p => p.1 = k)).length ≤ 1 :=
  filter_key_length_of_nodup st.instances k (reachable_keys_nodup st hst)

theorem registry_at_most_one_per_handle_witness :
    (((termwrap.get Registry.empty ⟨1, false, Except.ok 0, none⟩ true
        true).1.instances.filter (fun p => p.1 = 1)).length ≤ 1) :=
  registry_at_most_one_per_handle _
    (Reachable.step Registry.empty ⟨1, false, Except.ok 0, none⟩ true true Reachable.init) 1

/-! ## try_input helper lemmas -/

/-- Under a registry miss for stdout and a writable handle, `try_input` is
the guarded read with prompt text `""` after a truthy prompt (whose print
succeeded) and `end` otherwise. -/
theorem try_input_reduces (st : Registry) (stdoutH : FileHandle)
    (readLine : String → ReadResult) (prompt : Option String) (on_eof endStr : String)
    (hmiss : derefEntry (lookupEntry st.instances stdoutH.hid) = none)
    (hw : stdoutH.writeResult = none) :
    ∃ w, (try_input st stdoutH readLine prompt on_eof endStr).2 =
      readStep readLine (if promptTruthy prompt then "" else endStr) on_eof w := by
  cases hpt : promptTruthy prompt with
  | false =>
    refine ⟨none, ?_⟩
    simp [try_input, promptStep, hpt]
  | true =>
    refine ⟨some (String.intercalate "\n"
        (if (0:Int) < initialWidth stdoutH
         then wrapText (initialWidth stdoutH).toNat (prompt.getD "")
         else [prompt.getD ""]) ++ endStr), ?_⟩
    have hget := get_miss st stdoutH true hmiss
    simp [try_input, promptStep, hpt, termwrap.stdout, hget, Termwrap.printOut, hw]

/-! ## C1: read outcomes of try_input -/

/-- C1: with the prompt phase succeeding, `try_input` returns `on_eof` when
the read signals end-of-stream or fails with `EBADF`, propagates any other
I/O error, and otherwise returns the line read. -/
theorem try_input_read_outcomes (st : Registry) (stdoutH : FileHandle)
    (readLine : String → ReadResult) (prompt : Option String) (on_eof endStr : String)
    (hmiss : derefEntry (lookupEntry st.instances stdoutH.hid) = none)
    (hw : stdoutH.writeResult = none) :
    (readLine (if promptTruthy prompt then "" else endStr) = .eofError →
      ((try_input st stdoutH readLine prompt on_eof endStr).2).map TryInputTrace.result
        = .ok on_eof) ∧
    (readLine (if promptTruthy prompt then "" else endStr) = .envError EBADF →
      ((try_input st stdoutH readLine prompt on_eof endStr).2).map TryInputTrace.result
        = .ok on_eof) ∧
    (∀ e, e ≠ EBADF →
      readLine (if promptTruthy prompt then "" else endStr) = .envError e →
      (try_input st stdoutH readLine prompt on_eof endStr).2 = .error (.envError e)) ∧
    (∀ s, readLine (if promptTruthy prompt then "" else endStr) = .line s →
      ((try_input st stdoutH readLine prompt on_eof endStr).2).map TryInputTrace.result
        = .ok s) := by
  obtain ⟨w, hred⟩ :=
    try_input_reduces st stdoutH readLine prompt on_eof endStr hmiss hw
  refine ⟨fun h => ?_, fun h => ?_, fun e hne h => ?_, fun s h => ?_⟩
  · rw [hred]; simp [readStep, h, Except.map]
  · rw [hred]; simp [readStep, h, Except.map]
  · rw [hred]; simp [readStep, h, hne]
  · rw [hred]; simp [readStep, h, Except.map]

theorem try_input_read_outcomes_witness :
    ((try_input Registry.empty ⟨1, false, Except.ok 0, none⟩ (fun _ => .eofError)
        (some "Continue") "n" "\n? ").2).map TryInputTrace.result = .ok "n" :=
  (try_input_read_outcomes Registry.empty ⟨1, false, Except.ok 0, none⟩
      (fun _ => .eofError) (some "Continue") "n" "\n? " rfl rfl).1 rfl

/-! ## C9: prompt routing (corrected) -/

/-- C9 counterexample: with a truthy prompt the code prints
`prompt` *with* the line ending appended (`"Continue\n? "` is written) and
passes the empty string — not the line ending — as the read call's prompt
text. -/
theorem try_input_prompt_routing_counterexample :
    (try_input Registry.empty ⟨1, false, Except.ok 0, none⟩ (fun _ => .line "x")
        (some "Continue") "n" "\n? ").2 =
      .ok ⟨some "Continue\n? ", "", "x"⟩ ∧
    (try_input Registry.empty ⟨1, false, Except.ok 0, none⟩ (fun _ => .line "x")
        (some "Continue") "n" "\n? ").2 ≠
      .ok ⟨some "Continue", "\n? ", "x"⟩ :=
  ⟨by decide, by decide⟩

/-- C9 (amended): with a truthy prompt, the stdout Wrapper prints the
prompt wrapped at its width with `end` appended as the line ending, and the
empty string is passed as the read call's prompt text; with an empty or
`None` prompt nothing is printed and `end` is passed directly as the read
call's prompt text. -/
theorem try_input_prompt_routing (st : Registry) (stdoutH : FileHandle)
    (readLine : String → ReadResult) (prompt : Option String) (on_eof endStr : String)
    (hmiss : derefEntry (lookupEntry st.instances stdoutH.hid) = none)
    (hw : stdoutH.writeResult = none) :
    (promptTruthy prompt = true →
      (try_input st stdoutH readLine prompt on_eof endStr).2 =
        readStep readLine "" on_eof
          (some (String.intercalate "\n"
              (if (0:Int) < initialWidth stdoutH
               then wrapText (initialWidth stdoutH).toNat (prompt.getD "")
               else [prompt.getD ""]) ++ endStr))) ∧
    (promptTruthy prompt = false →
      (try_input st stdoutH readLine prompt on_eof endStr).2 =
        readStep readLine endStr on_eof none) := by
  have hget := get_miss st stdoutH true hmiss
  constructor
  · intro hpt
    simp [try_input, promptStep, hpt, termwrap.stdout, hget, Termwrap.printOut, hw]
  · intro hpt
    simp [try_input, promptStep, hpt]

theorem try_input_prompt_routing_witness :
    (try_input Registry.empty ⟨1, false, Except.ok 0, none⟩ (fun _ => .line "x")
        (some "Continue") "n" "\n? ").2 =
      readStep (fun _ => .line "x") "" "n" (some "Continue\n? ") := by
  exact (try_input_prompt_routing Registry.empty ⟨1, false, Except.ok 0, none⟩
      (fun _ => .line "x") (some "Continue") "n" "\n? " rfl rfl).1 rfl

/-! ## C10: prompt-print errors are not absorbed -/

/-- C10: an error raised while printing the prompt (here a failing write,
whatever its errno — including `EBADF`) propagates out of `try_input`
regardless of what the read would return; the absorption into `on_eof`
applies only to failures of the read call itself. -/
theorem try_input_print_error_propagates (st : Registry) (stdoutH : FileHandle)
    (readLine : String → ReadResult) (prompt : Option String) (on_eof endStr : String)
    (errno : Nat) (hp : promptTruthy prompt = true)
    (hmiss : derefEntry (lookupEntry st.instances stdoutH.hid) = none)
    (hwe : stdoutH.writeResult = some errno) :
    (try_input st stdoutH readLine prompt on_eof endStr).2 = .error (.envError errno) := by
  have hget := get_miss st stdoutH true hmiss
  simp [try_input, promptStep, hp, termwrap.stdout, hget, Termwrap.printOut, hwe]

theorem try_input_print_error_propagates_witness :
    (try_input Registry.empty ⟨1, false, Except.ok 0, some 9⟩ (fun _ => .eofError)
        (some "Continue") "n" "\n? ").2 = .error (.envError 9) :=
  try_input_print_error_propagates Registry.empty ⟨1, false, Except.ok 0, some 9⟩
    (fun _ => .eofError) (some "Continue") "n" "\n? " 9 rfl rfl rfl
